import Mathlib

/-!
Shallow embedding of `src/renderer/input.rs` from the `hudhook` repository:
the native event decoder (raw-input and legacy message paths), the IO state
reducer and the window procedure shim, together with theorems settling the
frozen claims about them.

Modelling conventions:
* Machine integers (`u16`, `u32`, `usize`, `isize`) are `Nat`, with explicit
  truncation (`% 2^w`) at the places the Rust code performs an `as` cast.
* The `i16` reinterpretation of a `u16` is `toI16`.
* `f32` wheel deltas are modelled as `ℚ`.  The raw-input path performs an
  exact `i16` integer division (truncation toward zero, `Int.tdiv`) before
  the lossless `i16 → f32` cast; the legacy path performs an `f32` division
  of an `i16` by `120.0`, which is modelled by exact rational division (the
  two agree whenever the quotient is exactly representable, in particular on
  every multiple of the notch unit, which is all the claims rely on).
* The external OS functions are explicit parameters: `mvk` stands for
  `MapVirtualKeyA(_, MAPVK_VSC_TO_VK_EX)` and `wndProc` for the original
  window procedure invoked through `CallWindowProcW`.  `GetRawInputData` is
  modelled by passing its return value `r` and the `RAWINPUT` payload it
  would have written.
* A channel send `wnd_proc_tx.send(c)` is modelled by appending `c` to the
  emitted change list; sends are in program order.
-/

namespace Hudhook

/-! ## Win32 constants (values of the `windows` crate bindings) -/

def RI_MOUSE_LEFT_BUTTON_DOWN : Nat := 0x0001
def RI_MOUSE_LEFT_BUTTON_UP : Nat := 0x0002
def RI_MOUSE_RIGHT_BUTTON_DOWN : Nat := 0x0004
def RI_MOUSE_RIGHT_BUTTON_UP : Nat := 0x0008
def RI_MOUSE_MIDDLE_BUTTON_DOWN : Nat := 0x0010
def RI_MOUSE_MIDDLE_BUTTON_UP : Nat := 0x0020
def RI_MOUSE_BUTTON_4_DOWN : Nat := 0x0040
def RI_MOUSE_BUTTON_4_UP : Nat := 0x0080
def RI_MOUSE_BUTTON_5_DOWN : Nat := 0x0100
def RI_MOUSE_BUTTON_5_UP : Nat := 0x0200
def RI_MOUSE_WHEEL : Nat := 0x0400
def RI_MOUSE_HWHEEL : Nat := 0x0800

def RI_KEY_MAKE : Nat := 0
def RI_KEY_BREAK : Nat := 1
def RI_KEY_E0 : Nat := 2
def RI_KEY_E1 : Nat := 4

def WHEEL_DELTA : Nat := 120

def VK_LBUTTON : Nat := 0x01
def VK_RBUTTON : Nat := 0x02
def VK_MBUTTON : Nat := 0x04
def VK_XBUTTON1 : Nat := 0x05
def VK_XBUTTON2 : Nat := 0x06
def VK_SHIFT : Nat := 0x10
def VK_CONTROL : Nat := 0x11
def VK_MENU : Nat := 0x12
def VK_LWIN : Nat := 0x5B
def VK_RWIN : Nat := 0x5C
def VK_LSHIFT : Nat := 0xA0
def VK_RSHIFT : Nat := 0xA1
def VK_LCONTROL : Nat := 0xA2
def VK_RCONTROL : Nat := 0xA3
def VK_LMENU : Nat := 0xA4
def VK_RMENU : Nat := 0xA5

def WM_SIZE : Nat := 0x0005
def WM_INPUT : Nat := 0x00FF
def WM_KEYDOWN : Nat := 0x0100
def WM_KEYUP : Nat := 0x0101
def WM_CHAR : Nat := 0x0102
def WM_SYSKEYDOWN : Nat := 0x0104
def WM_SYSKEYUP : Nat := 0x0105
def WM_MOUSEWHEEL : Nat := 0x020A
def WM_MOUSEHWHEEL : Nat := 0x020E
def WM_LBUTTONDOWN : Nat := 0x0201
def WM_LBUTTONUP : Nat := 0x0202
def WM_LBUTTONDBLCLK : Nat := 0x0203
def WM_RBUTTONDOWN : Nat := 0x0204
def WM_RBUTTONUP : Nat := 0x0205
def WM_RBUTTONDBLCLK : Nat := 0x0206
def WM_MBUTTONDOWN : Nat := 0x0207
def WM_MBUTTONUP : Nat := 0x0208
def WM_MBUTTONDBLCLK : Nat := 0x0209
def WM_XBUTTONDOWN : Nat := 0x020B
def WM_XBUTTONUP : Nat := 0x020C
def WM_XBUTTONDBLCLK : Nat := 0x020D

def RIM_INPUT : Nat := 0
def RIM_TYPEMOUSE : Nat := 0
def RIM_TYPEKEYBOARD : Nat := 1

def XBUTTON1 : Nat := 1

/-! ## Casts -/

/-- Reinterpretation of the low 16 bits of a `Nat` as a signed `i16`
(the Rust `as i16` cast on a `u16` value). -/
def toI16 (n : Nat) : Int :=
  if n % 65536 < 32768 then (n % 65536 : Int) else (n % 65536 : Int) - 65536

/-- Encoding of an in-range signed value as its `u16` bit pattern
(used to build concrete report fields from signed wheel values). -/
def toU16 (v : Int) : Nat := (v % 65536).toNat

/-- Replication of the Win32 HIWORD macro (`fn hiword(l: u32) -> u16`). -/
def hiword (l : Nat) : Nat := (l >>> 16) &&& 0xffff

/-! ## Data model -/

/-- The `InputChange` enum: one atomic input fact sent through the channel. -/
inductive InputChange where
  | MouseDown (index : Nat) (value : Bool)
  | KeyDown (index : Nat) (value : Bool)
  | MouseWheelScroll (delta : ℚ)
  | MouseWheelHorizontalScroll (delta : ℚ)
  | AddInputCharacter (character : Nat)
  | CtrlPressed (value : Bool)
  | ShiftPressed (value : Bool)
  | AltPressed (value : Bool)
  | SuperPressed (value : Bool)
deriving DecidableEq, Repr

/-- The fields of `RAWMOUSE_0_0` read by the decoder (both are `u16`). -/
structure RAWMOUSE00 where
  usButtonFlags : Nat
  usButtonData : Nat
deriving DecidableEq, Repr

/-- The fields of `RAWKEYBOARD` read by the decoder (all are `u16`). -/
structure RAWKEYBOARD where
  MakeCode : Nat
  Flags : Nat
  VKey : Nat
deriving DecidableEq, Repr

/-- The parts of the `RAWINPUT` union the decoder reads: the header's
device-type tag and the two payload variants (the union member matching
the tag is the one the Rust code reads). -/
structure RAWINPUT where
  dwType : Nat
  mouse : RAWMOUSE00
  keyboard : RAWKEYBOARD
deriving DecidableEq, Repr

/-! ## Raw input decoders -/

/-- `handle_raw_mouse_input`: check each possible mouse flag status and emit
the corresponding changes.  Each set button-transition flag sends a `KeyDown`
at the button's virtual-key code and then a `MouseDown`; the wheel flags send
a wheel delta computed by `i16` integer division by `WHEEL_DELTA`. -/
def handle_raw_mouse_input (raw_mouse : RAWMOUSE00) : List InputChange :=
  let button_flags := raw_mouse.usButtonFlags
  (if button_flags &&& RI_MOUSE_LEFT_BUTTON_DOWN ≠ 0 then
    [.KeyDown VK_LBUTTON true, .MouseDown 0 true] else []) ++
  (if button_flags &&& RI_MOUSE_LEFT_BUTTON_UP ≠ 0 then
    [.KeyDown VK_LBUTTON false, .MouseDown 0 false] else []) ++
  (if button_flags &&& RI_MOUSE_RIGHT_BUTTON_DOWN ≠ 0 then
    [.KeyDown VK_RBUTTON true, .MouseDown 1 true] else []) ++
  (if button_flags &&& RI_MOUSE_RIGHT_BUTTON_UP ≠ 0 then
    [.KeyDown VK_RBUTTON false, .MouseDown 1 false] else []) ++
  (if button_flags &&& RI_MOUSE_MIDDLE_BUTTON_DOWN ≠ 0 then
    [.KeyDown VK_MBUTTON true, .MouseDown 2 true] else []) ++
  (if button_flags &&& RI_MOUSE_MIDDLE_BUTTON_UP ≠ 0 then
    [.KeyDown VK_MBUTTON false, .MouseDown 2 false] else []) ++
  (if button_flags &&& RI_MOUSE_BUTTON_4_DOWN ≠ 0 then
    [.KeyDown VK_XBUTTON1 true, .MouseDown 3 true] else []) ++
  (if button_flags &&& RI_MOUSE_BUTTON_4_UP ≠ 0 then
    [.KeyDown VK_XBUTTON1 false, .MouseDown 3 false] else []) ++
  (if button_flags &&& RI_MOUSE_BUTTON_5_DOWN ≠ 0 then
    [.KeyDown VK_XBUTTON2 true, .MouseDown 4 true] else []) ++
  (if button_flags &&& RI_MOUSE_BUTTON_5_UP ≠ 0 then
    [.KeyDown VK_XBUTTON2 false, .MouseDown 4 false] else []) ++
  (if button_flags &&& RI_MOUSE_WHEEL ≠ 0 then
    [.MouseWheelScroll (((toI16 raw_mouse.usButtonData).tdiv (WHEEL_DELTA : Int) : Int) : ℚ)]
   else []) ++
  (if button_flags &&& RI_MOUSE_HWHEEL ≠ 0 then
    [.MouseWheelHorizontalScroll
      (((toI16 raw_mouse.usButtonData).tdiv (WHEEL_DELTA : Int) : Int) : ℚ)]
   else [])

/-- The widened scan code of a raw keyboard report: the make code with the
E0/E1 prefixes applied from the report flags. -/
def raw_scan_code (raw_keyboard : RAWKEYBOARD) : Nat :=
  let flags := raw_keyboard.Flags
  let code := raw_keyboard.MakeCode
  let code := if flags &&& RI_KEY_E0 ≠ 0 then code ||| 0xe000 else code
  let code := if flags &&& RI_KEY_E1 ≠ 0 then code ||| 0xe100 else code
  code

/-- The virtual key resolved by `handle_raw_keyboard_input`: for
Shift/Control/Alt the scan code is translated via `MapVirtualKeyA`
(`mvk`), keeping the generic key when the translation yields 0; the
nonzero translation result is truncated by the `as u16` cast. -/
def raw_virtual_key (mvk : Nat → Nat) (raw_keyboard : RAWKEYBOARD) : Nat :=
  if raw_keyboard.VKey = VK_SHIFT ∨ raw_keyboard.VKey = VK_CONTROL ∨
      raw_keyboard.VKey = VK_MENU then
    if mvk (raw_scan_code raw_keyboard) = 0 then raw_keyboard.VKey
    else mvk (raw_scan_code raw_keyboard) % 65536
  else raw_keyboard.VKey

/-- `handle_raw_keyboard_input`: drop zero key codes, resolve the virtual
key, and emit key state changes.  Note the source computes
`is_key_down = flags == RI_KEY_MAKE` (flags exactly 0) and
`is_key_up = flags & RI_KEY_BREAK != 0`, and evaluates the two
independently. -/
def handle_raw_keyboard_input (mvk : Nat → Nat) (raw_keyboard : RAWKEYBOARD) :
    List InputChange :=
  if raw_keyboard.VKey = 0 then []
  else
    let flags := raw_keyboard.Flags
    let is_key_down := flags = RI_KEY_MAKE
    let is_key_up := flags &&& RI_KEY_BREAK ≠ 0
    let virtual_key := raw_virtual_key mvk raw_keyboard
    if virtual_key < 0xFF then
      (if is_key_down then [.KeyDown virtual_key true] else []) ++
      (if is_key_up then [.KeyDown virtual_key false] else [])
    else []

/-- `handle_raw_input` (WM_INPUT): `r` is the `GetRawInputData` return value
and `raw_data` the payload it wrote.  A failure sentinel (`u32::MAX`), an
unfocused source (`wparam as u32 & 0xFF != RIM_INPUT`) and an unknown device
class each drop the message. -/
def handle_raw_input (mvk : Nat → Nat) (r : Nat) (raw_data : RAWINPUT)
    (wparam : Nat) : List InputChange :=
  if r = 4294967295 then []
  else if (wparam % 4294967296) &&& 0xFF ≠ RIM_INPUT then []
  else if raw_data.dwType = RIM_TYPEMOUSE then
    handle_raw_mouse_input raw_data.mouse
  else if raw_data.dwType = RIM_TYPEKEYBOARD then
    handle_raw_keyboard_input mvk raw_data.keyboard
  else []

/-! ## Legacy message decoders -/

/-- `map_vkey`: resolve Shift/Control/Alt to their left/right variant.
Shift is resolved through the scan code embedded in bits 16–23 of
`lparam` via `mvk` (falling back to the generic key on 0, truncating the
nonzero result by the `as u16` cast); Control and Alt through bit 24 of
`lparam`.  `wparam` here is the `u16` argument after the call site's
`as _` cast. -/
def map_vkey (mvk : Nat → Nat) (wparam : Nat) (lparam : Nat) : Nat :=
  if wparam = VK_SHIFT then
    if mvk ((lparam &&& 0x00ff0000) >>> 16) = 0 then wparam
    else mvk ((lparam &&& 0x00ff0000) >>> 16) % 65536
  else if wparam = VK_CONTROL then
    if lparam &&& 0x01000000 ≠ 0 then VK_RCONTROL else VK_LCONTROL
  else if wparam = VK_MENU then
    if lparam &&& 0x01000000 ≠ 0 then VK_RMENU else VK_LMENU
  else wparam

/-- `handle_input` (WM_(SYS)KEYDOWN/WM_(SYS)KEYUP): emit the `KeyDown`
change for the resolved key, then re-check the resolved key against the
modifier virtual keys and emit the matching modifier change. -/
def handle_input (mvk : Nat → Nat) (state : Nat) (wparam : Nat)
    (lparam : Nat) : List InputChange :=
  let pressed := state = WM_KEYDOWN ∨ state = WM_SYSKEYDOWN
  let pressed : Bool := decide pressed
  let key_pressed := map_vkey mvk (wparam % 65536) lparam
  [InputChange.KeyDown key_pressed pressed] ++
  (if key_pressed = VK_CONTROL ∨ key_pressed = VK_LCONTROL ∨
      key_pressed = VK_RCONTROL then
    [.CtrlPressed pressed]
  else if key_pressed = VK_SHIFT ∨ key_pressed = VK_LSHIFT ∨
      key_pressed = VK_RSHIFT then
    [.ShiftPressed pressed]
  else if key_pressed = VK_MENU ∨ key_pressed = VK_LMENU ∨
      key_pressed = VK_RMENU then
    [.AltPressed pressed]
  else if key_pressed = VK_LWIN ∨ key_pressed = VK_RWIN then
    [.SuperPressed pressed]
  else [])

/-! ## IO state reducer -/

/-- Modelled from the spec: the UI Input Snapshot (the `imgui::Io` state,
whose definition lives in the external UI library, not in this repository).
Per the spec it holds an array of button states indexed 0–4, an array of
key states indexed 0–254, cumulative wheel accumulators, four modifier
booleans, and an append-only text-input buffer. -/
structure Io where
  mouse_down : Array Bool
  keys_down : Array Bool
  mouse_wheel : ℚ
  mouse_wheel_h : ℚ
  input_characters : List Nat
  key_ctrl : Bool
  key_shift : Bool
  key_alt : Bool
  key_super : Bool
deriving DecidableEq, Repr

/-- `update_io`: fold one `InputChange` into the snapshot.  The Rust array
assignments `io.mouse_down[index] = value` and `io.keys_down[index] = value`
panic when the index is out of bounds; that fallibility is modelled by
returning `none` in exactly those cases. -/
def update_io (io : Io) (input_change : InputChange) : Option Io :=
  match input_change with
  | .MouseDown index value =>
    if h : index < io.mouse_down.size then
      some { io with mouse_down := io.mouse_down.set ⟨index, h⟩ value }
    else none
  | .KeyDown index value =>
    if h : index < io.keys_down.size then
      some { io with keys_down := io.keys_down.set ⟨index, h⟩ value }
    else none
  | .MouseWheelScroll delta =>
    some { io with mouse_wheel := io.mouse_wheel + delta }
  | .MouseWheelHorizontalScroll delta =>
    some { io with mouse_wheel_h := io.mouse_wheel_h + delta }
  | .AddInputCharacter character =>
    some { io with input_characters := io.input_characters ++ [character] }
  | .CtrlPressed value => some { io with key_ctrl := value }
  | .ShiftPressed value => some { io with key_shift := value }
  | .AltPressed value => some { io with key_alt := value }
  | .SuperPressed value => some { io with key_super := value }

/-- Draining a queue of changes into the snapshot: `update_io` applied in
order (the consumer calls `update_io` once per received change). -/
def applyChanges (io : Io) (changes : List InputChange) : Option Io :=
  changes.foldlM update_io io

/-! ## Window procedure shim -/

/-- The observable outcome of one `imgui_wnd_proc_impl` invocation: the
changes sent into the channel (in order), how many times the renderer's
resize callback ran, the arguments passed to the original window procedure
(`none` when it was not invoked), and the returned `LRESULT`. -/
structure WndProcResult where
  changes : List InputChange
  resizeCalls : Nat
  forwarded : Option (Nat × Nat × Nat × Nat)
  result : Int
deriving DecidableEq, Repr

/-- The tail of every non-resize arm of `imgui_wnd_proc_impl`: block
(return `LRESULT(1)`) or forward to the original procedure verbatim. -/
def shimFinish (wndProc : Nat → Nat → Nat → Nat → Int)
    (hwnd umsg wparam lparam : Nat) (should_block_messages : Bool)
    (changes : List InputChange) : WndProcResult :=
  if should_block_messages then
    { changes := changes, resizeCalls := 0, forwarded := none, result := 1 }
  else
    { changes := changes, resizeCalls := 0,
      forwarded := some (hwnd, umsg, wparam, lparam),
      result := wndProc hwnd umsg wparam lparam }

/-- `imgui_wnd_proc_impl`: dispatch on the message type (the Rust `match`
arms, in order), then apply the block/forward policy; `WM_SIZE` triggers
the resize callback and returns `LRESULT(1)` immediately. -/
def imgui_wnd_proc_impl (mvk : Nat → Nat)
    (wndProc : Nat → Nat → Nat → Nat → Int) (r : Nat) (raw_data : RAWINPUT)
    (hwnd umsg wparam lparam : Nat) (should_block_messages : Bool) :
    WndProcResult :=
  if umsg = WM_INPUT then
    shimFinish wndProc hwnd umsg wparam lparam should_block_messages
      (handle_raw_input mvk r raw_data wparam)
  else if (umsg = WM_KEYDOWN ∨ umsg = WM_SYSKEYDOWN ∨ umsg = WM_KEYUP ∨
      umsg = WM_SYSKEYUP) ∧ wparam < 256 then
    shimFinish wndProc hwnd umsg wparam lparam should_block_messages
      (handle_input mvk umsg wparam lparam)
  else if umsg = WM_LBUTTONDOWN ∨ umsg = WM_LBUTTONDBLCLK then
    shimFinish wndProc hwnd umsg wparam lparam should_block_messages
      [.MouseDown 0 true]
  else if umsg = WM_RBUTTONDOWN ∨ umsg = WM_RBUTTONDBLCLK then
    shimFinish wndProc hwnd umsg wparam lparam should_block_messages
      [.MouseDown 1 true]
  else if umsg = WM_MBUTTONDOWN ∨ umsg = WM_MBUTTONDBLCLK then
    shimFinish wndProc hwnd umsg wparam lparam should_block_messages
      [.MouseDown 2 true]
  else if umsg = WM_XBUTTONDOWN ∨ umsg = WM_XBUTTONDBLCLK then
    shimFinish wndProc hwnd umsg wparam lparam should_block_messages
      [.MouseDown (if hiword (wparam % 4294967296) = XBUTTON1 then 3 else 4)
        true]
  else if umsg = WM_LBUTTONUP then
    shimFinish wndProc hwnd umsg wparam lparam should_block_messages
      [.MouseDown 0 false]
  else if umsg = WM_RBUTTONUP then
    shimFinish wndProc hwnd umsg wparam lparam should_block_messages
      [.MouseDown 1 false]
  else if umsg = WM_MBUTTONUP then
    shimFinish wndProc hwnd umsg wparam lparam should_block_messages
      [.MouseDown 2 false]
  else if umsg = WM_XBUTTONUP then
    shimFinish wndProc hwnd umsg wparam lparam should_block_messages
      [.MouseDown (if hiword (wparam % 4294967296) = XBUTTON1 then 3 else 4)
        false]
  else if umsg = WM_MOUSEWHEEL then
    shimFinish wndProc hwnd umsg wparam lparam should_block_messages
      [.MouseWheelScroll
        ((toI16 (hiword (wparam % 4294967296)) : ℚ) / (WHEEL_DELTA : ℚ))]
  else if umsg = WM_MOUSEHWHEEL then
    shimFinish wndProc hwnd umsg wparam lparam should_block_messages
      [.MouseWheelHorizontalScroll
        ((toI16 (hiword (wparam % 4294967296)) : ℚ) / (WHEEL_DELTA : ℚ))]
  else if umsg = WM_CHAR then
    shimFinish wndProc hwnd umsg wparam lparam should_block_messages
      [.AddInputCharacter (wparam % 256)]
  else if umsg = WM_SIZE then
    { changes := [], resizeCalls := 1, forwarded := none, result := 1 }
  else
    shimFinish wndProc hwnd umsg wparam lparam should_block_messages []

/-! ## Derived data used by the theorems -/

/-- The message types handled by a dedicated arm of the `match` in
`imgui_wnd_proc_impl` (every other message falls through to the
block-or-forward policy with no decoding). -/
def handledMessages : List Nat :=
  [WM_INPUT, WM_KEYDOWN, WM_SYSKEYDOWN, WM_KEYUP, WM_SYSKEYUP, WM_LBUTTONDOWN,
   WM_LBUTTONDBLCLK, WM_RBUTTONDOWN, WM_RBUTTONDBLCLK, WM_MBUTTONDOWN,
   WM_MBUTTONDBLCLK, WM_XBUTTONDOWN, WM_XBUTTONDBLCLK, WM_LBUTTONUP,
   WM_RBUTTONUP, WM_MBUTTONUP, WM_XBUTTONUP, WM_MOUSEWHEEL, WM_MOUSEHWHEEL,
   WM_CHAR, WM_SIZE]

/-- The ten button-transition flags of the raw mouse path, each with its
fixed button index, canonical virtual-key code and pressed value. -/
def buttonTransitions : List (Nat × Nat × Nat × Bool) :=
  [(RI_MOUSE_LEFT_BUTTON_DOWN, 0, VK_LBUTTON, true),
   (RI_MOUSE_LEFT_BUTTON_UP, 0, VK_LBUTTON, false),
   (RI_MOUSE_RIGHT_BUTTON_DOWN, 1, VK_RBUTTON, true),
   (RI_MOUSE_RIGHT_BUTTON_UP, 1, VK_RBUTTON, false),
   (RI_MOUSE_MIDDLE_BUTTON_DOWN, 2, VK_MBUTTON, true),
   (RI_MOUSE_MIDDLE_BUTTON_UP, 2, VK_MBUTTON, false),
   (RI_MOUSE_BUTTON_4_DOWN, 3, VK_XBUTTON1, true),
   (RI_MOUSE_BUTTON_4_UP, 3, VK_XBUTTON1, false),
   (RI_MOUSE_BUTTON_5_DOWN, 4, VK_XBUTTON2, true),
   (RI_MOUSE_BUTTON_5_UP, 4, VK_XBUTTON2, false)]

/-- The index bounds a change must satisfy for the reducer's array
assignments: a button index of at most 4 and a key index below 256 (the
narrowest bound the decoders establish across both paths). -/
def changeInBounds (c : InputChange) : Bool :=
  match c with
  | .MouseDown index _ => decide (index ≤ 4)
  | .KeyDown index _ => decide (index < 256)
  | _ => true

/-- A concrete stand-in for the OS scan-code translation (maps every scan
code to 0, i.e. "no side-specific key"), used to instantiate theorems at
concrete inputs. -/
def mvkZero : Nat → Nat := fun _ => 0

/-- A concrete stand-in for the original window procedure, returning the
distinguishable result code 7. -/
def wndProcConst : Nat → Nat → Nat → Nat → Int := fun _ _ _ _ => 7

/-- A concrete all-zero raw-input payload. -/
def rawZero : RAWINPUT := ⟨0, ⟨0, 0⟩, ⟨0, 0, 0⟩⟩

/-- A concrete snapshot with the spec's array sizes: 5 button states and
key states indexed 0–254. -/
def ioSample : Io :=
  ⟨Array.mkArray 5 false, Array.mkArray 255 false, 0, 0, [], false, false,
   false, false⟩

/-- A concrete snapshot with the actual UI library's key array size (512
entries), large enough for every decoder-emitted index. -/
def ioWide : Io :=
  ⟨Array.mkArray 5 false, Array.mkArray 512 false, 0, 0, [], false, false,
   false, false⟩

/-! ## Helper lemmas -/

attribute [simp] RI_MOUSE_LEFT_BUTTON_DOWN RI_MOUSE_LEFT_BUTTON_UP
  RI_MOUSE_RIGHT_BUTTON_DOWN RI_MOUSE_RIGHT_BUTTON_UP
  RI_MOUSE_MIDDLE_BUTTON_DOWN RI_MOUSE_MIDDLE_BUTTON_UP
  RI_MOUSE_BUTTON_4_DOWN RI_MOUSE_BUTTON_4_UP RI_MOUSE_BUTTON_5_DOWN
  RI_MOUSE_BUTTON_5_UP RI_MOUSE_WHEEL RI_MOUSE_HWHEEL RI_KEY_MAKE
  RI_KEY_BREAK RI_KEY_E0 RI_KEY_E1 WHEEL_DELTA VK_LBUTTON VK_RBUTTON
  VK_MBUTTON VK_XBUTTON1 VK_XBUTTON2 VK_SHIFT VK_CONTROL VK_MENU VK_LWIN
  VK_RWIN VK_LSHIFT VK_RSHIFT VK_LCONTROL VK_RCONTROL VK_LMENU VK_RMENU
  WM_SIZE WM_INPUT WM_KEYDOWN WM_KEYUP WM_CHAR WM_SYSKEYDOWN WM_SYSKEYUP
  WM_MOUSEWHEEL WM_MOUSEHWHEEL WM_LBUTTONDOWN WM_LBUTTONUP WM_LBUTTONDBLCLK
  WM_RBUTTONDOWN WM_RBUTTONUP WM_RBUTTONDBLCLK WM_MBUTTONDOWN WM_MBUTTONUP
  WM_MBUTTONDBLCLK WM_XBUTTONDOWN WM_XBUTTONUP WM_XBUTTONDBLCLK RIM_INPUT
  RIM_TYPEMOUSE RIM_TYPEKEYBOARD XBUTTON1

lemma toU16_lt (v : Int) : toU16 v < 65536 := by
  unfold toU16
  omega

lemma toI16_toU16 (v : Int) (h1 : -32768 ≤ v) (h2 : v < 32768) :
    toI16 (toU16 v) = v := by
  unfold toI16 toU16
  split <;> omega

lemma hiword_shift (n : Nat) (h : n < 65536) :
    hiword ((n * 65536) % 4294967296) = n := by
  unfold hiword
  have hm : (n * 65536) % 4294967296 = n * 65536 := Nat.mod_eq_of_lt (by omega)
  rw [hm, Nat.shiftRight_eq_div_pow]
  have hdiv : n * 65536 / 2 ^ 16 = n := by omega
  rw [hdiv]
  have hmask : (65535 : Nat) = 2 ^ 16 - 1 := by norm_num
  rw [hmask, Nat.and_pow_two_sub_one_eq_mod]
  omega

lemma shimFinish_changes (wndProc : Nat → Nat → Nat → Nat → Int)
    (hwnd umsg wparam lparam : Nat) (block : Bool)
    (changes : List InputChange) :
    (shimFinish wndProc hwnd umsg wparam lparam block changes).changes =
      changes := by
  unfold shimFinish
  split <;> rfl

lemma shimFinish_resizeCalls (wndProc : Nat → Nat → Nat → Nat → Int)
    (hwnd umsg wparam lparam : Nat) (block : Bool)
    (changes : List InputChange) :
    (shimFinish wndProc hwnd umsg wparam lparam block changes).resizeCalls =
      0 := by
  unfold shimFinish
  split <;> rfl

lemma count_ite_nil {α : Type} [DecidableEq α] (e : α) (p : Prop)
    [Decidable p] (l : List α) :
    List.count e (if p then l else []) = if p then List.count e l else 0 := by
  split <;> simp

lemma count_nil_ite {α : Type} [DecidableEq α] (e : α) (p : Prop)
    [Decidable p] (l : List α) :
    List.count e (if p then [] else l) = if p then 0 else List.count e l := by
  split <;> simp

lemma mem_ite_nil {α : Type} {p : Prop} [Decidable p] {l : List α} {c : α}
    (h : c ∈ if p then l else []) : p ∧ c ∈ l := by
  split at h
  · exact ⟨by assumption, h⟩
  · cases h

lemma raw_wheel_vertical (d : Nat) :
    handle_raw_mouse_input ⟨RI_MOUSE_WHEEL, d⟩ =
      [.MouseWheelScroll (((toI16 d).tdiv (WHEEL_DELTA : Int) : Int) : ℚ)] := by
  simp +decide [handle_raw_mouse_input]

lemma raw_wheel_horizontal (d : Nat) :
    handle_raw_mouse_input ⟨RI_MOUSE_HWHEEL, d⟩ =
      [.MouseWheelHorizontalScroll
        (((toI16 d).tdiv (WHEEL_DELTA : Int) : Int) : ℚ)] := by
  simp +decide [handle_raw_mouse_input]

/-! ## Claim theorems -/

/-- C1 (counterexample): the claim says a raw keyboard report whose flags
have no break bit set yields a key-down change, independently of the E0/E1
prefix bits.  The report with flags = RI_KEY_E0 (= 2) has no break bit set,
a nonzero key code 0x41, and an in-bounds resolved virtual key, yet the
decoder emits nothing: the source tests `flags == RI_KEY_MAKE` (flags
exactly 0), which does depend on the prefix bits. -/
theorem c1_counterexample :
    (2 : Nat) &&& RI_KEY_BREAK = 0 ∧
    raw_virtual_key mvkZero ⟨0x1D, 2, 0x41⟩ = 0x41 ∧
    handle_raw_keyboard_input mvkZero ⟨0x1D, 2, 0x41⟩ = [] := by
  decide

/-- C1 (amended): for a raw keyboard report with nonzero key code and
in-bounds resolved virtual key, a key-down change is emitted iff the flags
are exactly RI_KEY_MAKE (all flag bits clear, not merely "break bit
clear"), and a key-up change is emitted iff the break bit is set; the two
emissions are appended independently, not chosen by an if/else. -/
theorem c1_make_break (mvk : Nat → Nat) (k : RAWKEYBOARD) (h0 : k.VKey ≠ 0)
    (hv : raw_virtual_key mvk k < 255) :
    handle_raw_keyboard_input mvk k =
      (if k.Flags = RI_KEY_MAKE then
        [InputChange.KeyDown (raw_virtual_key mvk k) true] else []) ++
      (if k.Flags &&& RI_KEY_BREAK ≠ 0 then
        [InputChange.KeyDown (raw_virtual_key mvk k) false] else []) := by
  simp [handle_raw_keyboard_input, h0, hv]

/-- Witness for C1 (amended) at a concrete make report. -/
theorem c1_make_break_witness :
    (0x41 : Nat) ≠ 0 ∧ raw_virtual_key mvkZero ⟨0x1D, 0, 0x41⟩ < 255 ∧
    handle_raw_keyboard_input mvkZero ⟨0x1D, 0, 0x41⟩ =
      (if (0 : Nat) = RI_KEY_MAKE then
        [InputChange.KeyDown (raw_virtual_key mvkZero ⟨0x1D, 0, 0x41⟩) true]
       else []) ++
      (if (0 : Nat) &&& RI_KEY_BREAK ≠ 0 then
        [InputChange.KeyDown (raw_virtual_key mvkZero ⟨0x1D, 0, 0x41⟩) false]
       else []) :=
  ⟨by decide, by decide,
   c1_make_break mvkZero ⟨0x1D, 0, 0x41⟩ (by decide) (by decide)⟩

/-- C2: for every message type without a dedicated decode arm, blocking
returns the fixed handled code `LRESULT(1)` with no forwarding, no change
and no resize; passing through invokes the original procedure with the
unmodified `hwnd`, message, `wparam` and `lparam` and returns its result
verbatim. -/
theorem c2_unhandled_message_policy (mvk : Nat → Nat)
    (wndProc : Nat → Nat → Nat → Nat → Int) (r : Nat) (raw : RAWINPUT)
    (hwnd umsg wparam lparam : Nat) (h : umsg ∉ handledMessages) :
    imgui_wnd_proc_impl mvk wndProc r raw hwnd umsg wparam lparam true =
      { changes := [], resizeCalls := 0, forwarded := none, result := 1 } ∧
    imgui_wnd_proc_impl mvk wndProc r raw hwnd umsg wparam lparam false =
      { changes := [], resizeCalls := 0,
        forwarded := some (hwnd, umsg, wparam, lparam),
        result := wndProc hwnd umsg wparam lparam } := by
  simp [handledMessages] at h
  obtain ⟨h1, h2, h3, h4, h5, h6, h7, h8, h9, h10, h11, h12, h13, h14, h15,
    h16, h17, h18, h19, h20, h21⟩ := h
  constructor <;>
    simp [imgui_wnd_proc_impl, shimFinish, h1, h2, h3, h4, h5, h6, h7, h8,
      h9, h10, h11, h12, h13, h14, h15, h16, h17, h18, h19, h20, h21]

/-- Witness for C2 at the unhandled message 3 (WM_MOVE). -/
theorem c2_unhandled_message_policy_witness :
    imgui_wnd_proc_impl mvkZero wndProcConst 0 rawZero 1 3 2 4 true =
      { changes := [], resizeCalls := 0, forwarded := none, result := 1 } ∧
    imgui_wnd_proc_impl mvkZero wndProcConst 0 rawZero 1 3 2 4 false =
      { changes := [], resizeCalls := 0, forwarded := some (1, 3, 2, 4),
        result := wndProcConst 1 3 2 4 } :=
  c2_unhandled_message_policy mvkZero wndProcConst 0 rawZero 1 3 2 4
    (by decide)

/-- C3: for each of the ten button-transition flags, the raw mouse decoder
emits exactly one `KeyDown` at the button's canonical virtual key and
exactly one `MouseDown` at the fixed button index with the matching
pressed value when the flag is set, and none of either when it is
clear. -/
theorem c3_raw_mouse_buttons (m : RAWMOUSE00) (flag idx vk : Nat) (p : Bool)
    (h : (flag, idx, vk, p) ∈ buttonTransitions) :
    List.count (InputChange.MouseDown idx p) (handle_raw_mouse_input m) =
      (if m.usButtonFlags &&& flag ≠ 0 then 1 else 0) ∧
    List.count (InputChange.KeyDown vk p) (handle_raw_mouse_input m) =
      (if m.usButtonFlags &&& flag ≠ 0 then 1 else 0) := by
  fin_cases h <;>
    constructor <;>
    simp [handle_raw_mouse_input, List.count_append, count_ite_nil,
      count_nil_ite, List.count_cons, List.count_nil]

/-- Witness for C3: a report with only the left-button-down flag set. -/
theorem c3_raw_mouse_buttons_witness :
    List.count (InputChange.MouseDown 0 true) (handle_raw_mouse_input ⟨1, 0⟩)
      = (if (1 : Nat) &&& RI_MOUSE_LEFT_BUTTON_DOWN ≠ 0 then 1 else 0) ∧
    List.count (InputChange.KeyDown VK_LBUTTON true)
      (handle_raw_mouse_input ⟨1, 0⟩)
      = (if (1 : Nat) &&& RI_MOUSE_LEFT_BUTTON_DOWN ≠ 0 then 1 else 0) :=
  c3_raw_mouse_buttons ⟨1, 0⟩ RI_MOUSE_LEFT_BUTTON_DOWN 0 VK_LBUTTON true
    (by decide)

/-- C4: a legacy key-down (plain or system) carrying the generic Control
key resolves to right-Control when bit 24 of `lparam` is set and
left-Control when clear, and also emits `CtrlPressed true` alongside the
`KeyDown`. -/
theorem c4_control_left_right (mvk : Nat → Nat) (state lparam : Nat)
    (h : state = WM_KEYDOWN ∨ state = WM_SYSKEYDOWN) :
    handle_input mvk state VK_CONTROL lparam =
      [InputChange.KeyDown
        (if lparam &&& 0x01000000 ≠ 0 then VK_RCONTROL else VK_LCONTROL)
        true,
       InputChange.CtrlPressed true] := by
  rcases h with rfl | rfl <;>
    by_cases hb : lparam &&& 0x01000000 ≠ 0 <;>
    simp [handle_input, map_vkey, hb]

/-- Witness for C4 at `lparam = 0` (bit 24 clear) on WM_KEYDOWN. -/
theorem c4_control_left_right_witness :
    handle_input mvkZero WM_KEYDOWN VK_CONTROL 0 =
      [InputChange.KeyDown
        (if (0 : Nat) &&& 0x01000000 ≠ 0 then VK_RCONTROL else VK_LCONTROL)
        true,
       InputChange.CtrlPressed true] :=
  c4_control_left_right mvkZero WM_KEYDOWN 0 (Or.inl rfl)

/-- C5: every recoverable-drop condition produces zero `InputChange`
values and nothing else: (a) a raw-input fetch failure (all-ones 32-bit
return), (b) an unfocused-window source flag, (c) an unknown raw device
class, (d) a zero raw-keyboard key code, and (e) a legacy key message with
virtual-key parameter ≥ 256, which also never touches the resize
callback. -/
theorem c5_recoverable_drops :
    (∀ (mvk : Nat → Nat) (raw : RAWINPUT) (wparam : Nat),
      handle_raw_input mvk 4294967295 raw wparam = []) ∧
    (∀ (mvk : Nat → Nat) (r : Nat) (raw : RAWINPUT) (wparam : Nat),
      (wparam % 4294967296) &&& 0xFF ≠ RIM_INPUT →
      handle_raw_input mvk r raw wparam = []) ∧
    (∀ (mvk : Nat → Nat) (r : Nat) (raw : RAWINPUT) (wparam : Nat),
      raw.dwType ≠ RIM_TYPEMOUSE → raw.dwType ≠ RIM_TYPEKEYBOARD →
      handle_raw_input mvk r raw wparam = []) ∧
    (∀ (mvk : Nat → Nat) (k : RAWKEYBOARD), k.VKey = 0 →
      handle_raw_keyboard_input mvk k = []) ∧
    (∀ (mvk : Nat → Nat) (wndProc : Nat → Nat → Nat → Nat → Int) (r : Nat)
      (raw : RAWINPUT) (hwnd umsg wparam lparam : Nat) (block : Bool),
      (umsg = WM_KEYDOWN ∨ umsg = WM_SYSKEYDOWN ∨ umsg = WM_KEYUP ∨
        umsg = WM_SYSKEYUP) → 256 ≤ wparam →
      (imgui_wnd_proc_impl mvk wndProc r raw hwnd umsg wparam lparam
        block).changes = [] ∧
      (imgui_wnd_proc_impl mvk wndProc r raw hwnd umsg wparam lparam
        block).resizeCalls = 0) := by
  refine ⟨?_, ?_, ?_, ?_, ?_⟩
  · intro mvk raw wparam
    simp [handle_raw_input]
  · intro mvk r raw wparam h
    simp [handle_raw_input]
    intro hr hc
    exact absurd hc (by simpa using h)
  · intro mvk r raw wparam h1 h2
    simp at h1 h2
    simp [handle_raw_input, h1, h2]
  · intro mvk k h
    simp [handle_raw_keyboard_input, h]
  · intro mvk wndProc r raw hwnd umsg wparam lparam block humsg hw
    have hnot : ¬ wparam < 256 := by omega
    rcases humsg with rfl | rfl | rfl | rfl <;>
      constructor <;>
      simp [imgui_wnd_proc_impl, hnot, shimFinish_changes,
        shimFinish_resizeCalls]

/-- Witness for C5: one concrete input for each drop condition. -/
theorem c5_recoverable_drops_witness :
    handle_raw_input mvkZero 4294967295 rawZero 0 = [] ∧
    handle_raw_input mvkZero 0 rawZero 1 = [] ∧
    handle_raw_input mvkZero 0 ⟨2, ⟨0, 0⟩, ⟨0, 0, 0⟩⟩ 0 = [] ∧
    handle_raw_keyboard_input mvkZero ⟨0, 0, 0⟩ = [] ∧
    ((imgui_wnd_proc_impl mvkZero wndProcConst 0 rawZero 1 WM_KEYDOWN 256 0
        true).changes = [] ∧
     (imgui_wnd_proc_impl mvkZero wndProcConst 0 rawZero 1 WM_KEYDOWN 256 0
        true).resizeCalls = 0) :=
  ⟨c5_recoverable_drops.1 mvkZero rawZero 0,
   c5_recoverable_drops.2.1 mvkZero 0 rawZero 1 (by decide),
   c5_recoverable_drops.2.2.1 mvkZero 0 ⟨2, ⟨0, 0⟩, ⟨0, 0, 0⟩⟩ 0 (by decide)
     (by decide),
   c5_recoverable_drops.2.2.2.1 mvkZero ⟨0, 0, 0⟩ rfl,
   c5_recoverable_drops.2.2.2.2 mvkZero wndProcConst 0 rawZero 1 WM_KEYDOWN
     256 0 true (Or.inl rfl) (by decide)⟩

/-- C6: for every signed 16-bit raw wheel value that is a multiple of the
notch unit 120, the emitted delta is exactly the value divided by 120, on
the raw-input and the legacy message path, on both the vertical and the
horizontal axis. -/
theorem c6_wheel_delta_exact (v : Int) (mvk : Nat → Nat)
    (wndProc : Nat → Nat → Nat → Nat → Int) (r : Nat) (raw : RAWINPUT)
    (hwnd lparam : Nat) (block : Bool)
    (h1 : -32768 ≤ v) (h2 : v < 32768) (hd : (120 : Int) ∣ v) :
    handle_raw_mouse_input ⟨RI_MOUSE_WHEEL, toU16 v⟩ =
      [InputChange.MouseWheelScroll ((v : ℚ) / 120)] ∧
    handle_raw_mouse_input ⟨RI_MOUSE_HWHEEL, toU16 v⟩ =
      [InputChange.MouseWheelHorizontalScroll ((v : ℚ) / 120)] ∧
    (imgui_wnd_proc_impl mvk wndProc r raw hwnd WM_MOUSEWHEEL
      (toU16 v * 65536) lparam block).changes =
      [InputChange.MouseWheelScroll ((v : ℚ) / 120)] ∧
    (imgui_wnd_proc_impl mvk wndProc r raw hwnd WM_MOUSEHWHEEL
      (toU16 v * 65536) lparam block).changes =
      [InputChange.MouseWheelHorizontalScroll ((v : ℚ) / 120)] := by
  obtain ⟨k, rfl⟩ := hd
  have hto : toI16 (toU16 (120 * k)) = 120 * k := toI16_toU16 _ h1 h2
  have h120 : ((WHEEL_DELTA : Nat) : Int) = 120 := by
    norm_num [WHEEL_DELTA]
  have htd : (toI16 (toU16 (120 * k))).tdiv (WHEEL_DELTA : Int) = k := by
    rw [hto, h120]
    exact Int.mul_tdiv_cancel_left k (by norm_num)
  have hq : ((120 * k : Int) : ℚ) / 120 = (k : ℚ) := by
    push_cast
    exact mul_div_cancel_left₀ _ (by norm_num)
  have hh : hiword ((toU16 (120 * k) * 65536) % 4294967296) =
      toU16 (120 * k) := hiword_shift _ (toU16_lt _)
  refine ⟨?_, ?_, ?_, ?_⟩
  · rw [raw_wheel_vertical, htd, hq]
  · rw [raw_wheel_horizontal, htd, hq]
  · have := imgui_wnd_proc_impl mvk wndProc r raw hwnd WM_MOUSEWHEEL
      (toU16 (120 * k) * 65536) lparam block
    simp only [imgui_wnd_proc_impl]
    norm_num [shimFinish_changes, hh, hto, hq, WHEEL_DELTA]
  · simp only [imgui_wnd_proc_impl]
    norm_num [shimFinish_changes, hh, hto, hq, WHEEL_DELTA]

/-- Witness for C6 at the claim's concrete values 240 and -120. -/
theorem c6_wheel_delta_exact_witness :
    (handle_raw_mouse_input ⟨RI_MOUSE_WHEEL, toU16 240⟩ =
      [InputChange.MouseWheelScroll ((240 : ℚ) / 120)] ∧
     handle_raw_mouse_input ⟨RI_MOUSE_HWHEEL, toU16 240⟩ =
      [InputChange.MouseWheelHorizontalScroll ((240 : ℚ) / 120)] ∧
     (imgui_wnd_proc_impl mvkZero wndProcConst 0 rawZero 1 WM_MOUSEWHEEL
       (toU16 240 * 65536) 0 true).changes =
      [InputChange.MouseWheelScroll ((240 : ℚ) / 120)] ∧
     (imgui_wnd_proc_impl mvkZero wndProcConst 0 rawZero 1 WM_MOUSEHWHEEL
       (toU16 240 * 65536) 0 true).changes =
      [InputChange.MouseWheelHorizontalScroll ((240 : ℚ) / 120)]) ∧
    (handle_raw_mouse_input ⟨RI_MOUSE_WHEEL, toU16 (-120)⟩ =
      [InputChange.MouseWheelScroll ((-120 : ℚ) / 120)] ∧
     handle_raw_mouse_input ⟨RI_MOUSE_HWHEEL, toU16 (-120)⟩ =
      [InputChange.MouseWheelHorizontalScroll ((-120 : ℚ) / 120)] ∧
     (imgui_wnd_proc_impl mvkZero wndProcConst 0 rawZero 1 WM_MOUSEWHEEL
       (toU16 (-120) * 65536) 0 true).changes =
      [InputChange.MouseWheelScroll ((-120 : ℚ) / 120)] ∧
     (imgui_wnd_proc_impl mvkZero wndProcConst 0 rawZero 1 WM_MOUSEHWHEEL
       (toU16 (-120) * 65536) 0 true).changes =
      [InputChange.MouseWheelHorizontalScroll ((-120 : ℚ) / 120)]) :=
  ⟨c6_wheel_delta_exact 240 mvkZero wndProcConst 0 rawZero 1 0 true
     (by decide) (by decide) (by decide),
   c6_wheel_delta_exact (-120) mvkZero wndProcConst 0 rawZero 1 0 true
     (by decide) (by decide) (by decide)⟩

/-- C8: a WM_SIZE message triggers the resize callback exactly once, sends
no change, and returns the fixed handled code `LRESULT(1)` immediately,
for both values of the blocking flag and without invoking the original
procedure. -/
theorem c8_resize_message (mvk : Nat → Nat)
    (wndProc : Nat → Nat → Nat → Nat → Int) (r : Nat) (raw : RAWINPUT)
    (hwnd wparam lparam : Nat) (block : Bool) :
    imgui_wnd_proc_impl mvk wndProc r raw hwnd WM_SIZE wparam lparam block =
      { changes := [], resizeCalls := 1, forwarded := none, result := 1 } := by
  simp [imgui_wnd_proc_impl]

/-- C9: legacy extra-button messages resolve the button index from the
high word of `wparam` (1 → index 3, anything else → index 4), identically
for down, double-click and up; and each double-click message emits exactly
the changes of the corresponding fresh button-down message. -/
theorem c9_xbutton_disambiguation (mvk : Nat → Nat)
    (wndProc : Nat → Nat → Nat → Nat → Int) (r : Nat) (raw : RAWINPUT)
    (hwnd wparam lparam : Nat) (block : Bool) :
    (imgui_wnd_proc_impl mvk wndProc r raw hwnd WM_XBUTTONDOWN wparam lparam
      block).changes =
      [InputChange.MouseDown
        (if hiword (wparam % 4294967296) = XBUTTON1 then 3 else 4) true] ∧
    (imgui_wnd_proc_impl mvk wndProc r raw hwnd WM_XBUTTONDBLCLK wparam
      lparam block).changes =
      [InputChange.MouseDown
        (if hiword (wparam % 4294967296) = XBUTTON1 then 3 else 4) true] ∧
    (imgui_wnd_proc_impl mvk wndProc r raw hwnd WM_XBUTTONUP wparam lparam
      block).changes =
      [InputChange.MouseDown
        (if hiword (wparam % 4294967296) = XBUTTON1 then 3 else 4) false] ∧
    (imgui_wnd_proc_impl mvk wndProc r raw hwnd WM_LBUTTONDBLCLK wparam
      lparam block).changes =
      (imgui_wnd_proc_impl mvk wndProc r raw hwnd WM_LBUTTONDOWN wparam
        lparam block).changes ∧
    (imgui_wnd_proc_impl mvk wndProc r raw hwnd WM_RBUTTONDBLCLK wparam
      lparam block).changes =
      (imgui_wnd_proc_impl mvk wndProc r raw hwnd WM_RBUTTONDOWN wparam
        lparam block).changes ∧
    (imgui_wnd_proc_impl mvk wndProc r raw hwnd WM_MBUTTONDBLCLK wparam
      lparam block).changes =
      (imgui_wnd_proc_impl mvk wndProc r raw hwnd WM_MBUTTONDOWN wparam
        lparam block).changes ∧
    (imgui_wnd_proc_impl mvk wndProc r raw hwnd WM_XBUTTONDBLCLK wparam
      lparam block).changes =
      (imgui_wnd_proc_impl mvk wndProc r raw hwnd WM_XBUTTONDOWN wparam
        lparam block).changes := by
  refine ⟨?_, ?_, ?_, ?_, ?_, ?_, ?_⟩ <;>
    simp [imgui_wnd_proc_impl, shimFinish_changes]

/-- C7: within one drain, `WheelDelta` changes accumulate additively onto
the prior accumulator value (two deltas of 1.0 and -0.5 leave the prior
value plus 0.5), whereas `MouseButton`, `KeyState` and `ModifierState`
changes are direct boolean assignments with last-write-wins. -/
theorem c7_reducer_fold (io : Io) (q1 q2 : ℚ) (i k : Nat)
    (a b a2 b2 m1 m2 : Bool)
    (hi : i < io.mouse_down.size) (hk : k < io.keys_down.size) :
    applyChanges io [.MouseWheelScroll q1, .MouseWheelScroll q2] =
      some { io with mouse_wheel := io.mouse_wheel + q1 + q2 } ∧
    applyChanges io [.MouseWheelScroll 1, .MouseWheelScroll (-(1/2))] =
      some { io with mouse_wheel := io.mouse_wheel + 1/2 } ∧
    applyChanges io
      [.MouseWheelHorizontalScroll q1, .MouseWheelHorizontalScroll q2] =
      some { io with mouse_wheel_h := io.mouse_wheel_h + q1 + q2 } ∧
    applyChanges io
      [.MouseWheelHorizontalScroll 1, .MouseWheelHorizontalScroll (-(1/2))] =
      some { io with mouse_wheel_h := io.mouse_wheel_h + 1/2 } ∧
    (∃ io2, applyChanges io [.MouseDown i a, .MouseDown i b] = some io2 ∧
      io2.mouse_down.getD i false = b ∧ io2.mouse_wheel = io.mouse_wheel) ∧
    (∃ io2, applyChanges io [.KeyDown k a2, .KeyDown k b2] = some io2 ∧
      io2.keys_down.getD k false = b2) ∧
    applyChanges io [.CtrlPressed m1, .CtrlPressed m2] =
      some { io with key_ctrl := m2 } ∧
    applyChanges io [.ShiftPressed m1, .ShiftPressed m2] =
      some { io with key_shift := m2 } ∧
    applyChanges io [.AltPressed m1, .AltPressed m2] =
      some { io with key_alt := m2 } ∧
    applyChanges io [.SuperPressed m1, .SuperPressed m2] =
      some { io with key_super := m2 } := by
  refine ⟨?_, ?_, ?_, ?_, ?_, ?_, ?_, ?_, ?_, ?_⟩
  · simp [applyChanges, update_io, add_assoc]
  · simp [applyChanges, update_io]
    ring_nf
  · simp [applyChanges, update_io, add_assoc]
  · simp [applyChanges, update_io]
    ring_nf
  · have hi2 : i < (io.mouse_down.set ⟨i, hi⟩ a).size := by
      simpa using hi
    refine ⟨{ io with
        mouse_down := (io.mouse_down.set ⟨i, hi⟩ a).set ⟨i, hi2⟩ b },
      ?_, ?_, rfl⟩
    · simp [applyChanges, update_io, hi, hi2]
    · simp [Array.getD, hi2, Array.get_set_eq]
      exact fun _ => hi
  · have hk2 : k < (io.keys_down.set ⟨k, hk⟩ a2).size := by
      simpa using hk
    refine ⟨{ io with
        keys_down := (io.keys_down.set ⟨k, hk⟩ a2).set ⟨k, hk2⟩ b2 },
      ?_, ?_⟩
    · simp [applyChanges, update_io, hk, hk2]
    · simp [Array.getD, hk2, Array.get_set_eq]
      exact fun _ => hk
  · simp [applyChanges, update_io]
  · simp [applyChanges, update_io]
  · simp [applyChanges, update_io]
  · simp [applyChanges, update_io]

set_option maxRecDepth 4000 in
/-- Witness for C7 on a concrete snapshot with the spec's array sizes. -/
theorem c7_reducer_fold_witness :
    applyChanges ioSample [.MouseWheelScroll 1, .MouseWheelScroll 2] =
      some { ioSample with mouse_wheel := ioSample.mouse_wheel + 1 + 2 } ∧
    applyChanges ioSample [.MouseWheelScroll 1, .MouseWheelScroll (-(1/2))] =
      some { ioSample with mouse_wheel := ioSample.mouse_wheel + 1/2 } ∧
    applyChanges ioSample
      [.MouseWheelHorizontalScroll 1, .MouseWheelHorizontalScroll 2] =
      some { ioSample with
        mouse_wheel_h := ioSample.mouse_wheel_h + 1 + 2 } ∧
    applyChanges ioSample
      [.MouseWheelHorizontalScroll 1,
       .MouseWheelHorizontalScroll (-(1/2))] =
      some { ioSample with
        mouse_wheel_h := ioSample.mouse_wheel_h + 1/2 } ∧
    (∃ io2, applyChanges ioSample [.MouseDown 2 true, .MouseDown 2 false] =
      some io2 ∧ io2.mouse_down.getD 2 false = false ∧
      io2.mouse_wheel = ioSample.mouse_wheel) ∧
    (∃ io2, applyChanges ioSample [.KeyDown 10 false, .KeyDown 10 true] =
      some io2 ∧ io2.keys_down.getD 10 false = true) ∧
    applyChanges ioSample [.CtrlPressed true, .CtrlPressed false] =
      some { ioSample with key_ctrl := false } ∧
    applyChanges ioSample [.ShiftPressed true, .ShiftPressed false] =
      some { ioSample with key_shift := false } ∧
    applyChanges ioSample [.AltPressed true, .AltPressed false] =
      some { ioSample with key_alt := false } ∧
    applyChanges ioSample [.SuperPressed true, .SuperPressed false] =
      some { ioSample with key_super := false } :=
  c7_reducer_fold ioSample 1 2 2 10 true false false true true false
    (by decide) (by decide)


lemma raw_mouse_inBounds (m : RAWMOUSE00) :
    ∀ c ∈ handle_raw_mouse_input m, changeInBounds c = true := by
  intro c hc
  simp only [handle_raw_mouse_input, List.mem_append] at hc
  rcases hc with
    ((((((((((h | h) | h) | h) | h) | h) | h) | h) | h) | h) | h) | h <;>
    rcases mem_ite_nil h with ⟨-, hm⟩ <;>
    simp only [List.mem_cons, List.mem_singleton, List.not_mem_nil,
      or_false] at hm <;>
    rcases hm with rfl | rfl <;> rfl

lemma raw_kbd_inBounds (mvk : Nat → Nat) (k : RAWKEYBOARD) :
    ∀ c ∈ handle_raw_keyboard_input mvk k, changeInBounds c = true := by
  intro c hc
  simp only [handle_raw_keyboard_input] at hc
  split at hc
  · cases hc
  · split at hc
    case isTrue h =>
      rw [List.mem_append] at hc
      rcases hc with h' | h' <;>
        rcases mem_ite_nil h' with ⟨-, hm⟩ <;>
        simp only [List.mem_singleton] at hm <;>
        subst hm <;>
        simp [changeInBounds] <;>
        omega
    case isFalse => cases hc

lemma map_vkey_lt (mvk : Nat → Nat) (h : ∀ s, mvk s < 255)
    (w l : Nat) (hw : w < 256) : map_vkey mvk w l < 256 := by
  unfold map_vkey
  have hm := h ((l &&& 0x00ff0000) >>> 16)
  split_ifs <;>
    first
    | omega
    | (simp only [VK_RCONTROL, VK_LCONTROL, VK_RMENU, VK_LMENU]; omega)

lemma handle_input_inBounds (mvk : Nat → Nat) (h : ∀ s, mvk s < 255)
    (state w l : Nat) (hw : w < 256) :
    ∀ c ∈ handle_input mvk state w l, changeInBounds c = true := by
  intro c hc
  have hkey : map_vkey mvk (w % 65536) l < 256 :=
    map_vkey_lt mvk h (w % 65536) l (by omega)
  simp only [handle_input, List.mem_append, List.mem_cons,
    List.not_mem_nil, or_false] at hc
  rcases hc with rfl | hc
  · simp only [changeInBounds]
    simpa using hkey
  · split at hc
    · simp only [List.mem_singleton] at hc
      subst hc; rfl
    · split at hc
      · simp only [List.mem_singleton] at hc
        subst hc; rfl
      · split at hc
        · simp only [List.mem_singleton] at hc
          subst hc; rfl
        · split at hc
          · simp only [List.mem_singleton] at hc
            subst hc; rfl
          · cases hc


lemma raw_input_inBounds (mvk : Nat → Nat) (r : Nat) (raw : RAWINPUT)
    (w : Nat) : ∀ c ∈ handle_raw_input mvk r raw w, changeInBounds c = true := by
  intro c hc
  simp only [handle_raw_input] at hc
  split at hc
  · cases hc
  · split at hc
    · cases hc
    · split at hc
      · exact raw_mouse_inBounds raw.mouse c hc
      · split at hc
        · exact raw_kbd_inBounds mvk raw.keyboard c hc
        · cases hc

lemma update_io_isSome (io : Io) (c : InputChange)
    (hb : changeInBounds c = true) (h5 : 5 ≤ io.mouse_down.size)
    (h256 : 256 ≤ io.keys_down.size) : (update_io io c).isSome = true := by
  cases c <;>
    simp only [changeInBounds, decide_eq_true_eq] at hb <;>
    simp only [update_io, Option.isSome_some] <;>
    first
    | rfl
    | (rw [dif_pos (by omega)]; rfl)

/-- C10 (amended): assuming the OS scan-code translation returns valid
virtual keys (below 255), every change any decoder path can emit has a
button index of at most 4 or a key index below 256, so `update_io` cannot
fail on any snapshot whose button array has at least 5 entries and whose
key array has at least 256 entries (the actual UI library's key array has
512). -/
theorem c10_decoder_indices_in_bounds (mvk : Nat → Nat) (wndProc : Nat → Nat → Nat → Nat → Int)
    (r : Nat) (raw : RAWINPUT) (hwnd umsg wparam lparam : Nat) (block : Bool)
    (hmvk : ∀ s, mvk s < 255) (c : InputChange)
    (hc : c ∈ (imgui_wnd_proc_impl mvk wndProc r raw hwnd umsg wparam lparam
      block).changes)
    (io : Io) (h5 : 5 ≤ io.mouse_down.size) (h256 : 256 ≤ io.keys_down.size) :
    changeInBounds c = true ∧ (update_io io c).isSome = true := by
  have hb : changeInBounds c = true := by
    by_cases h1 : umsg = WM_INPUT
    · rw [imgui_wnd_proc_impl, if_pos h1] at hc
      rw [shimFinish_changes] at hc
      exact raw_input_inBounds mvk r raw wparam c hc
    ·
      by_cases h2 : (umsg = WM_KEYDOWN ∨ umsg = WM_SYSKEYDOWN ∨ umsg = WM_KEYUP ∨ umsg = WM_SYSKEYUP) ∧ wparam < 256
      · rw [imgui_wnd_proc_impl, if_neg h1, if_pos h2] at hc
        rw [shimFinish_changes] at hc
        exact handle_input_inBounds mvk hmvk umsg wparam lparam h2.2 c hc
      ·
        by_cases h3 : umsg = WM_LBUTTONDOWN ∨ umsg = WM_LBUTTONDBLCLK
        · rw [imgui_wnd_proc_impl, if_neg h1, if_neg h2, if_pos h3] at hc
          rw [shimFinish_changes] at hc
          rcases List.mem_singleton.mp hc with rfl
          rfl
        ·
          by_cases h4 : umsg = WM_RBUTTONDOWN ∨ umsg = WM_RBUTTONDBLCLK
          · rw [imgui_wnd_proc_impl, if_neg h1, if_neg h2, if_neg h3, if_pos h4] at hc
            rw [shimFinish_changes] at hc
            rcases List.mem_singleton.mp hc with rfl
            rfl
          ·
            by_cases h5 : umsg = WM_MBUTTONDOWN ∨ umsg = WM_MBUTTONDBLCLK
            · rw [imgui_wnd_proc_impl, if_neg h1, if_neg h2, if_neg h3, if_neg h4, if_pos h5] at hc
              rw [shimFinish_changes] at hc
              rcases List.mem_singleton.mp hc with rfl
              rfl
            ·
              by_cases h6 : umsg = WM_XBUTTONDOWN ∨ umsg = WM_XBUTTONDBLCLK
              · rw [imgui_wnd_proc_impl, if_neg h1, if_neg h2, if_neg h3, if_neg h4, if_neg h5, if_pos h6] at hc
                rw [shimFinish_changes] at hc
                rcases List.mem_singleton.mp hc with rfl
                simp only [changeInBounds, decide_eq_true_eq]
                split <;> omega
              ·
                by_cases h7 : umsg = WM_LBUTTONUP
                · rw [imgui_wnd_proc_impl, if_neg h1, if_neg h2, if_neg h3, if_neg h4, if_neg h5, if_neg h6, if_pos h7] at hc
                  rw [shimFinish_changes] at hc
                  rcases List.mem_singleton.mp hc with rfl
                  rfl
                ·
                  by_cases h8 : umsg = WM_RBUTTONUP
                  · rw [imgui_wnd_proc_impl, if_neg h1, if_neg h2, if_neg h3, if_neg h4, if_neg h5, if_neg h6, if_neg h7, if_pos h8] at hc
                    rw [shimFinish_changes] at hc
                    rcases List.mem_singleton.mp hc with rfl
                    rfl
                  ·
                    by_cases h9 : umsg = WM_MBUTTONUP
                    · rw [imgui_wnd_proc_impl, if_neg h1, if_neg h2, if_neg h3, if_neg h4, if_neg h5, if_neg h6, if_neg h7, if_neg h8, if_pos h9] at hc
                      rw [shimFinish_changes] at hc
                      rcases List.mem_singleton.mp hc with rfl
                      rfl
                    ·
                      by_cases h10 : umsg = WM_XBUTTONUP
                      · rw [imgui_wnd_proc_impl, if_neg h1, if_neg h2, if_neg h3, if_neg h4, if_neg h5, if_neg h6, if_neg h7, if_neg h8, if_neg h9, if_pos h10] at hc
                        rw [shimFinish_changes] at hc
                        rcases List.mem_singleton.mp hc with rfl
                        simp only [changeInBounds, decide_eq_true_eq]
                        split <;> omega
                      ·
                        by_cases h11 : umsg = WM_MOUSEWHEEL
                        · rw [imgui_wnd_proc_impl, if_neg h1, if_neg h2, if_neg h3, if_neg h4, if_neg h5, if_neg h6, if_neg h7, if_neg h8, if_neg h9, if_neg h10, if_pos h11] at hc
                          rw [shimFinish_changes] at hc
                          rcases List.mem_singleton.mp hc with rfl
                          rfl
                        ·
                          by_cases h12 : umsg = WM_MOUSEHWHEEL
                          · rw [imgui_wnd_proc_impl, if_neg h1, if_neg h2, if_neg h3, if_neg h4, if_neg h5, if_neg h6, if_neg h7, if_neg h8, if_neg h9, if_neg h10, if_neg h11, if_pos h12] at hc
                            rw [shimFinish_changes] at hc
                            rcases List.mem_singleton.mp hc with rfl
                            rfl
                          ·
                            by_cases h13 : umsg = WM_CHAR
                            · rw [imgui_wnd_proc_impl, if_neg h1, if_neg h2, if_neg h3, if_neg h4, if_neg h5, if_neg h6, if_neg h7, if_neg h8, if_neg h9, if_neg h10, if_neg h11, if_neg h12, if_pos h13] at hc
                              rw [shimFinish_changes] at hc
                              rcases List.mem_singleton.mp hc with rfl
                              rfl
                            ·
                              by_cases h14 : umsg = WM_SIZE
                              · rw [imgui_wnd_proc_impl, if_neg h1, if_neg h2, if_neg h3, if_neg h4, if_neg h5, if_neg h6, if_neg h7, if_neg h8, if_neg h9, if_neg h10, if_neg h11, if_neg h12, if_neg h13, if_pos h14] at hc
                                exact absurd hc (List.not_mem_nil c)
                              ·
                                rw [imgui_wnd_proc_impl, if_neg h1, if_neg h2, if_neg h3, if_neg h4, if_neg h5, if_neg h6, if_neg h7, if_neg h8, if_neg h9, if_neg h10, if_neg h11, if_neg h12, if_neg h13, if_neg h14, shimFinish_changes] at hc
                                exact absurd hc (List.not_mem_nil c)
  exact ⟨hb, update_io_isSome io c hb h5 h256⟩

set_option maxRecDepth 4000 in
/-- C10 (counterexample): the legacy key path accepts virtual-key
parameters up to 255 (`wparam < 256`), so it can emit a `KeyDown` at
index 255, which is not below the key-state array bound of the spec's
snapshot (key states indexed 0–254): `update_io` on such a snapshot fails
on that decoder-produced change. -/
theorem c10_counterexample :
    (imgui_wnd_proc_impl mvkZero wndProcConst 0 rawZero 0 WM_KEYDOWN 255 0
      true).changes = [InputChange.KeyDown 255 true] ∧
    update_io ioSample (InputChange.KeyDown 255 true) = none := by
  constructor
  · decide
  · decide

/-- Witness for C10 (amended) at a concrete left-button-down message and
a snapshot with the actual UI library's array sizes. -/
theorem c10_decoder_indices_in_bounds_witness :
    changeInBounds (InputChange.MouseDown 0 true) = true ∧
    (update_io ioWide (InputChange.MouseDown 0 true)).isSome = true :=
  c10_decoder_indices_in_bounds mvkZero wndProcConst 0 rawZero 1
    WM_LBUTTONDOWN 0 0 true (fun _ => by simp [mvkZero])
    (InputChange.MouseDown 0 true) (by decide) ioWide
    (by simp [ioWide]) (by simp [ioWide])

end Hudhook
